import Mathlib

/-!
Shallow embedding of the RAG orchestration core of the Ahad AI chatbot backend
(`backend/src/config/langchain.config.js`, class `AhadAIService`), together with
proofs about the retrieval, prompt-building and session-state operations.

Modelling conventions:
* JS strings are Lean `String`s; `toLowerCase`/`toUpperCase`/`trim`/`split(' ')`/
  `substring`/`includes` are `String.toLower`/`String.toUpper`/`String.trim`/
  `String.splitOn " "`/`String.take`/character-list infix containment.
* JS numbers used as scores/confidences (0.9, 0.8, 0.6, matchScore) are exact
  rationals `ℚ`; all comparisons performed on them in the source are order/equality
  comparisons that floating point evaluates identically on these small values.
* The JS `Map`s (`sessionContexts`, `conversationHistory`) are association lists
  `List (String × _)` with lookup / overwrite / delete helpers.
* The two external collaborators are parameters: the inference backend is a
  function `String → Except String String` (`.error` = thrown network/timeout
  error), and the optional Chroma vector store is a field
  `Option (Except String (List Passage))` (`none` = not configured /
  `chromaInitialized` false, `some (.error _)` = similarity search throws,
  `some (.ok ds)` = similarity search returns `ds`).
* Wall-clock timestamps (`new Date().toISOString()`) are a `now : String`
  parameter, one instant per call.
* All the JS `try`/`catch` blocks around the code modelled here either guard the
  external calls above (modelled by `Except`) or are unreachable for the pure
  operations; the Lean functions are total, which is exactly the "never
  propagates an exception" behaviour of the source.
-/

namespace AhadAI

/-- Association-list lookup, modelling `Map.get` / `Map.has`. -/
def mapGet {α : Type} (m : List (String × α)) (k : String) : Option α :=
  (m.find? (fun p => p.1 = k)).map (fun p => p.2)

/-- Association-list overwrite, modelling `Map.set`. -/
def mapSet {α : Type} (m : List (String × α)) (k : String) (v : α) : List (String × α) :=
  match m with
  | [] => [(k, v)]
  | p :: rest => if p.1 = k then (k, v) :: rest else p :: mapSet rest k v

/-- Association-list removal, modelling `Map.delete`. -/
def mapDel {α : Type} (m : List (String × α)) (k : String) : List (String × α) :=
  m.filter (fun p => p.1 ≠ k)

/-- A document of the local knowledge base (`this.localKnowledge` entries):
`content` plus the `source` and `type` fields of its metadata (the only
metadata fields the modelled operations write or read). -/
structure Doc where
  content : String
  source : String
  dtype : String
  deriving DecidableEq

/-- A processed uploaded file as it is stored in a session context
(`filename`, `type`, `size`, `content`; `content` is `none` for the JS
`null`, i.e. extraction failed). -/
structure SessFile where
  filename : String
  ftype : String
  size : Nat
  content : Option String
  deriving DecidableEq

/-- A retrieved passage (`{ pageContent, metadata }` objects built in
`ragQuery` / `searchInSessionFiles`): the metadata fields that the code
ever writes are `source`, `filename`, `type` and `matchScore`. -/
structure Passage where
  pageContent : String
  msource : String
  mfilename : Option String
  mtype : Option String
  matchScore : Option ℚ
  deriving DecidableEq

/-- A per-session context (`this.sessionContexts` values). -/
structure SessionCtx where
  files : List SessFile
  fileContext : String
  lastUpdated : String
  language : String
  deriving DecidableEq

/-- A stored conversation turn. Assistant turns carry no `files` field in the
source; JS renders `msg.files` only when truthy, so the absent field and the
number `0` behave identically and are both modelled by `files = 0`. -/
structure Turn where
  role : String
  content : String
  language : String
  files : Nat
  timestamp : String
  deriving DecidableEq

/-- Result record of `ragQuery` / `getBasicResponse` / `fallbackResponse`. -/
structure RagResult where
  text : String
  sources : List String
  confidence : ℚ
  language : String
  timestamp : String
  deriving DecidableEq

/-- Result record of `processWithRAG`. -/
structure ProcessResult where
  text : String
  sentiment : String
  intent : String
  sources : List String
  confidence : ℚ
  language : String
  shouldSpeak : Bool
  sessionId : String
  fileCount : Nat
  timestamp : String
  deriving DecidableEq

/-- Result record of `clearSession` (the `try` branch; the `catch` branch is
unreachable for the pure map operations). -/
structure ClearResult where
  success : Bool
  message : String
  timestamp : String
  deriving DecidableEq

/-- Result of `getSessionInfo`: the source returns one of two object shapes,
modelled as a sum. -/
inductive SessionInfo where
  | notFound (message : String)
  | found (sessionId language : String) (fileCount messageCount : Nat)
      (lastUpdated timestamp : String)
  deriving DecidableEq

/-- Result record of `addToKnowledgeBase` (success branch). -/
structure AddResult where
  success : Bool
  count : Nat
  ids : List Nat
  deriving DecidableEq

/-- Options object of `processWithRAG` (with the destructured defaults applied
by the caller). `useRAG` is destructured but never read by the source. -/
structure Options where
  message : String
  language : String
  sessionId : String
  useRAG : Bool
  analyzeSentiment : Bool
  files : List SessFile
  newFiles : List SessFile
  deriving DecidableEq

/-- The mutable state of an `AhadAIService` instance, restricted to the fields
the modelled operations touch. `hasLLM` models `!!this.llm`; `vector` models
`this.vectorStore && this.chromaInitialized` together with the outcome of the
similarity search (an external collaborator). -/
structure ServiceState where
  isReady : Bool
  hasLLM : Bool
  localKnowledge : List Doc
  conversationHistory : List (String × List Turn)
  sessionContexts : List (String × SessionCtx)
  vector : Option (Except String (List Passage))

/-- The `context` argument of `ragQuery`. -/
structure QueryContext where
  history : String
  fileContext : String
  sessionId : String
  files : List SessFile

/-! The string primitives of the source (`toLowerCase`, `trim`, `split(' ')`,
`substring(0, n)`, `includes`) are implemented here directly over the
character list of the `String`, so that every definition evaluates inside the
kernel. `Char.toLower`/`Char.toUpper` only map the ASCII range, which agrees
with JS on all text the modelled code compares case-insensitively. -/

/-- JS `s.toLowerCase()`. -/
def toLowerStr (s : String) : String :=
  String.mk (s.data.map Char.toLower)

/-- JS `s.toUpperCase()`. -/
def toUpperStr (s : String) : String :=
  String.mk (s.data.map Char.toUpper)

/-- JS `s.trim()`. -/
def trimStr (s : String) : String :=
  String.mk (((s.data.dropWhile Char.isWhitespace).reverse.dropWhile
    Char.isWhitespace).reverse)

/-- JS `s.substring(0, n)`. -/
def takeStr (s : String) (n : Nat) : String :=
  String.mk (s.data.take n)

/-- Splitting a character list at every occurrence of a separator character,
keeping empty pieces, exactly like JS `split` with a one-character separator. -/
def splitChar (sep : Char) : List Char → List Char → List (List Char)
  | [], acc => [acc.reverse]
  | c :: rest, acc =>
    if c = sep then acc.reverse :: splitChar sep rest [] else splitChar sep rest (c :: acc)

/-- JS `s.split(' ')`. -/
def splitSpaces (s : String) : List String :=
  (splitChar ' ' s.data []).map String.mk

/-- Substring containment, modelling JS `String.prototype.includes`. -/
def strContains (hay needle : String) : Bool :=
  hay.data.tails.any (fun t => needle.data.isPrefixOf t)

/-- Query tokenization used by both lexical searches:
`query.toLowerCase().split(' ').filter(w => w.length > 2)`. -/
def tokenize (query : String) : List String :=
  (splitSpaces (toLowerStr query)).filter (fun w => w.length > 2)

/-- Per-language template strings (`this.languageConfig` entries). -/
structure LangCfg where
  lname : String
  greeting : String
  igeneral : String
  iimage : String
  idocument : String
  ifile : String
  deriving DecidableEq

/-- `this.languageConfig[language] || this.languageConfig['en']`. -/
def langConfigFor (language : String) : LangCfg :=
  if language = "en" then
    { lname := "English"
      greeting := "Hello! I'm Ahad AI, your multilingual assistant. How can I help you today?"
      igeneral := "Provide helpful, accurate responses in English."
      iimage := "Describe the image content in detail."
      idocument := "Analyze the document and extract key information."
      ifile := "Reference uploaded files when relevant." }
  else if language = "hi" then
    { lname := "Hindi"
      greeting := "नमस्ते! मैं आहद AI हूं, आपका बहुभाषी सहायक। आज मैं आपकी कैसे सहायता कर सकता हूं?"
      igeneral := "हिंदी में सहायक, सटीक प्रतिक्रियाएं प्रदान करें।"
      iimage := "छवि सामग्री का विस्तार से वर्णन करें।"
      idocument := "दस्तावेज़ का विश्लेषण करें और मुख्य जानकारी निकालें।"
      ifile := "प्रासंगिक होने पर अपलोड की गई फ़ाइलों का संदर्भ दें।" }
  else if language = "ar" then
    { lname := "Arabic"
      greeting := "مرحبًا! أنا آحاد AI، مساعدك متعدد اللغات. كيف يمكنني مساعدتك اليوم؟"
      igeneral := "قدم ردودًا مفيدة ودقيقة باللغة العربية."
      iimage := "صف محتوى الصورة بالتفصيل."
      idocument := "حلل المستند واستخرج المعلومات الرئيسية."
      ifile := "أشر إلى الملفات المرفوعة عندما تكون ذات صلة." }
  else if language = "te" then
    { lname := "Telugu"
      greeting := "హలో! నేను ఆహద్ AI, మీ బహుభాషా సహాయకుడు. నేను ఈరోజు మీకు ఎలా సహాయం చేయగలను?"
      igeneral := "తెలుగులో సహాయకరమైన, ఖచ్చితమైన ప్రతిస్పందనలను అందించండి."
      iimage := "చిత్రం కంటెంట్‌ను వివరంగా వివరించండి."
      idocument := "డాక్యుమెంట్‌ను విశ్లేషించి ప్రధాన సమాచారాన్ని సేకరించండి."
      ifile := "సంబంధితమైనప్పుడు అప్‌లోడ్ చేసిన ఫైళ్లను సూచించండి." }
  else
    { lname := "English"
      greeting := "Hello! I'm Ahad AI, your multilingual assistant. How can I help you today?"
      igeneral := "Provide helpful, accurate responses in English."
      iimage := "Describe the image content in detail."
      idocument := "Analyze the document and extract key information."
      ifile := "Reference uploaded files when relevant." }

/-- The canned text of `fallbackResponse`, selected by
`responses[language] || responses.en` with the query interpolated. -/
def fallbackText (language query : String) : String :=
  if language = "en" then
    "I understand you're asking: \"" ++ query ++ "\". As Ahad AI, I can help you analyze uploaded files and answer questions about them. If you've uploaded files, please make sure they were successfully processed."
  else if language = "hi" then
    "मैं समझता हूं आप पूछ रहे हैं: \"" ++ query ++ "\"। आहद AI के रूप में, मैं अपलोड किए गए फाइलों का विश्लेषण करने और उनके बारे में प्रश्नों का उत्तर देने में आपकी सहायता कर सकता हूं। यदि आपने फाइलें अपलोड की हैं, तो कृपया सुनिश्चित करें कि वे सफलतापूर्वक प्रसंस्कृत हुई हैं।"
  else if language = "ar" then
    "أفهم أنك تسأل: \"" ++ query ++ "\". كآحاد AI، يمكنني مساعدتك في تحليل الملفات المرفوعة والإجابة على أسئلتك عنها. إذا قمت بتحميل ملفات، يرجى التأكد من معالجتها بنجاح."
  else if language = "te" then
    "మీరు అడుగుతున్నారని నేను అర్థం చేసుకున్నాను: \"" ++ query ++ "\". ఆహద్ AI గా, నేను అప్‌లోడ్ చేసిన ఫైళ్లను విశ్లేషించడంలో మరియు వాటి గురించి ప్రశ్నలకు సమాధానం ఇవ్వడంలో మీకు సహాయపడగలను. మీరు ఫైళ్లను అప్‌లోడ్ చేసి ఉంటే, అవి విజయవంతంగా ప్రాసెస్ చేయబడ్డాయని నిర్ధారించుకోండి."
  else
    "I understand you're asking: \"" ++ query ++ "\". As Ahad AI, I can help you analyze uploaded files and answer questions about them. If you've uploaded files, please make sure they were successfully processed."

/-- `fallbackResponse(query, language)`. -/
def fallbackResponse (query language now : String) : RagResult :=
  { text := fallbackText language query
    sources := ["fallback"]
    confidence := (6 : ℚ) / 10
    language := language
    timestamp := now }

/-- The five documents seeded by `initializeLocalStorage`. -/
def initialLocalKnowledge : List Doc :=
  [ { content := "Ahad AI is a multilingual assistant supporting English, Hindi, Arabic, and Telugu"
      source := "system", dtype := "multilingual" }
  , { content := "The assistant can analyze uploaded files including images, PDFs, and documents in any supported language"
      source := "system", dtype := "file_support" }
  , { content := "For image analysis, describe visual elements, colors, objects, text, and overall composition"
      source := "system", dtype := "image_analysis" }
  , { content := "For document analysis, summarize content, extract key points, identify themes, and answer specific questions"
      source := "system", dtype := "document_analysis" }
  , { content := "The assistant maintains conversation context and can remember uploaded files within a session"
      source := "system", dtype := "memory" } ]

/-- The filter predicate of step 1 of `ragQuery`: a document is kept when the
tokenized query is empty or some query word occurs in the lowercased content. -/
def docMatches (queryWords : List String) (doc : Doc) : Bool :=
  let content := toLowerStr doc.content
  queryWords.isEmpty || queryWords.any (fun word => strContains content word)

/-- The `{ pageContent, metadata }` passage built from a knowledge document. -/
def docPassage (doc : Doc) : Passage :=
  { pageContent := doc.content, msource := doc.source, mfilename := none
    mtype := some doc.dtype, matchScore := none }

/-- Step 1 of `ragQuery`: lexical search of `this.localKnowledge`, keeping
matching documents in store order, truncated by `slice(0, 3)` and mapped to
`{ pageContent, metadata }` objects. -/
def localSearch (query : String) (knowledge : List Doc) : List Passage :=
  let queryWords := tokenize query
  ((knowledge.filter (docMatches queryWords)).take 3).map docPassage

/-- Loop body of the `sessionFiles.forEach` in `searchInSessionFiles`: a file
with truthy extracted content and at least one matching query word pushes a
passage whose text is the first 1000 characters of the content plus an
ellipsis, with `matchScore = matches / queryWords.length` (written with `mkRat`
so that the exact rational evaluates inside the kernel; the divisor is never
zero on the paths reached from `searchInSessionFiles`). -/
def sessStep (queryWords : List String) (results : List Passage) (file : SessFile) :
    List Passage :=
  match file.content with
  | none => results
  | some c =>
    if c = "" then results
    else
      let content := toLowerStr c
      let matchCount := (queryWords.filter (fun word => strContains content word)).length
      if matchCount > 0 then
        results ++
          [ { pageContent := "From uploaded file \"" ++ file.filename ++ "\":\n" ++
                takeStr c 1000 ++ "..."
              msource := "session_file"
              mfilename := some file.filename
              mtype := some file.ftype
              matchScore := some (mkRat matchCount queryWords.length) } ]
      else results

/-- `searchInSessionFiles(query, sessionFiles)`: returns `[]` outright when the
tokenized query is empty, otherwise collects passages for matching files in
file order and returns `results.slice(0, 2)`. -/
def searchInSessionFiles (query : String) (sessionFiles : List SessFile) : List Passage :=
  let queryWords := tokenize query
  if queryWords.length = 0 then []
  else (sessionFiles.foldl (sessStep queryWords) []).take 2

/-- `formatFileSize(bytes)`. The JS code renders the quotient with two decimal
places through floating point; only the string is interpolated into the session
file context, and no property proved here inspects it, so the fractional digits
are dropped. -/
def formatFileSize (bytes : Nat) : String :=
  if bytes = 0 then "0 Bytes"
  else
    let i := Nat.log 1024 bytes
    toString (bytes / 1024 ^ i) ++ " " ++ (["Bytes", "KB", "MB", "GB"].getD i "GB")

/-- `detectIntent(text, language)`: fixed keyword-to-intent mapping with
first-match priority; `language` is received but never read. -/
def detectIntent (text : String) (_language : String) : String :=
  let textLower := toLowerStr text
  if strContains textLower "upload" || strContains textLower "file" || strContains textLower "attach" then "file_upload"
  else if strContains textLower "image" || strContains textLower "picture" || strContains textLower "photo" then "image_analysis"
  else if strContains textLower "document" || strContains textLower "pdf" || strContains textLower "word" then "document_analysis"
  else if strContains textLower "search" || strContains textLower "find" then "search"
  else if strContains textLower "analyze" || strContains textLower "explain" || strContains textLower "describe" then "analysis"
  else if strContains textLower "calculate" || strContains textLower "math" then "calculate"
  else if strContains textLower "translate" || strContains textLower "language" then "translate"
  else if strContains textLower "hello" || strContains textLower "hi" ||
      strContains textLower "नमस्ते" || strContains textLower "مرحبا" || strContains textLower "హలో" then "greeting"
  else if strContains textLower "help" then "help"
  else "general"

/-- The condition under which the prompt builder appends the
`PREVIOUS CONVERSATION` section:
`context.history && context.history.trim() !== 'No previous conversation'`. -/
def includeHistory (history : String) : Bool :=
  history ≠ "" && trimStr history ≠ "No previous conversation"

/-- The enhanced multilingual prompt assembled inside `ragQuery`, section by
section in source order. -/
def buildPrompt (language contextText fileContext : String) (filesCount : Nat)
    (history query : String) : String :=
  let langConfig := langConfigFor language
  let p := "You are Ahad AI, an intelligent multilingual assistant.\n\nIMPORTANT: You MUST respond EXCLUSIVELY in " ++
    langConfig.lname ++ " language (" ++ toUpperStr language ++ ")!\n\nAVAILABLE LANGUAGES: English (en), Hindi (hi), Arabic (ar), Telugu (te)\nCURRENT RESPONSE LANGUAGE: " ++
    langConfig.lname ++ " (" ++ toUpperStr language ++ ")\n\nCONTEXT INFORMATION:\n" ++ contextText
  let p := if fileContext ≠ "" && trimStr fileContext ≠ "" then
      p ++ "\n\nUPLOADED FILES INFORMATION:\n" ++ fileContext ++ "\n"
    else p
  let p := if filesCount > 0 then
      p ++ "\nCURRENT SESSION HAS " ++ toString filesCount ++ " UPLOADED FILE(S)."
    else p
  let p := if includeHistory history then
      p ++ "\n\nPREVIOUS CONVERSATION:\n" ++ history
    else p
  let p := p ++ "\n\nUSER QUERY: " ++ query
  let p := p ++ "\n\nLANGUAGE-SPECIFIC INSTRUCTIONS:\n" ++
    "1. Respond ONLY in " ++ langConfig.lname ++ " (" ++ toUpperStr language ++ ")\n" ++
    "2. " ++ langConfig.igeneral ++ "\n"
  let queryLower := toLowerStr query
  let p := if strContains queryLower "image" || strContains queryLower "picture" || strContains queryLower "photo" then
      p ++ "3. " ++ langConfig.iimage ++ "\n" ++
        "   - Describe visual elements, colors, objects, text\n" ++
        "   - Mention composition and overall impression\n" ++
        "   - If text is visible, read and interpret it\n"
    else p
  let p := if strContains queryLower "document" || strContains queryLower "file" || strContains queryLower "pdf" then
      p ++ "3. " ++ langConfig.idocument ++ "\n" ++
        "   - Summarize key points\n" ++
        "   - Extract important information\n" ++
        "   - Answer specific questions about content\n"
    else p
  let p := if filesCount > 0 then p ++ "3. " ++ langConfig.ifile ++ "\n" else p
  let p := p ++ "\nGENERAL GUIDELINES:\n" ++
    "- Be helpful, friendly, and informative\n" ++
    "- If context is relevant, use it\n" ++
    "- If no context, use general knowledge\n" ++
    "- Maintain conversation flow\n" ++
    "- Keep responses concise but complete\n"
  p ++ "\nRESPONSE IN " ++ toUpperStr language ++ ":\n"

/-- Steps 1-4 of the retrieval merge inside `ragQuery`: local lexical search,
optional Chroma similarity search (errors swallowed), session-file search, and
the source-tag bookkeeping ending with the unconditional
`sources.push('local_knowledge')`. -/
def retrieve (st : ServiceState) (query : String) (sessionId : String) :
    List Passage × List String :=
  let relevantDocs := localSearch query st.localKnowledge
  let step2 : List Passage × List String :=
    match st.vector with
    | some (Except.ok chromaDocs) => (relevantDocs ++ chromaDocs, ["chromadb"])
    | some (Except.error _) => (relevantDocs, [])
    | none => (relevantDocs, [])
  let step3 : List Passage × List String :=
    if sessionId ≠ "" then
      match mapGet st.sessionContexts sessionId with
      | some sessionContext =>
        if sessionContext.files.length > 0 then
          let fileDocs := searchInSessionFiles query sessionContext.files
          (step2.1 ++ fileDocs,
           if fileDocs.length > 0 then step2.2 ++ ["session_files"] else step2.2)
        else step2
      | none => step2
    else step2
  (step3.1, step3.2 ++ ["local_knowledge"])

/-- The `contextText` fed into the prompt: joined passage texts, or the
no-context sentinel. -/
def contextTextOf (relevantDocs : List Passage) : String :=
  if relevantDocs.length > 0 then
    String.intercalate "\n\n" (relevantDocs.map Passage.pageContent)
  else "No specific context available. Use your general knowledge."

/-- The full prompt `ragQuery` sends to the inference backend. -/
def ragPrompt (st : ServiceState) (query language : String) (ctx : QueryContext) : String :=
  buildPrompt language (contextTextOf (retrieve st query ctx.sessionId).1)
    ctx.fileContext ctx.files.length ctx.history query

/-- The simpler prompt of `getBasicResponse`. -/
def basicPrompt (query language : String) : String :=
  let langConfig := langConfigFor language
  "User asked in " ++ langConfig.lname ++ ": \"" ++ query ++ "\"\n                \nRespond in " ++
    langConfig.lname ++ " language only as Ahad AI, a helpful multilingual assistant.\nBe friendly, informative, and helpful.\nIf the user is asking about uploaded files but you don't have file context, ask them to upload the file first.\n\nResponse in " ++
    langConfig.lname ++ ":"

/-- `getBasicResponse(query, language)`: retries the backend with the simpler
prompt; a second failure (or a missing LLM handle) degrades to
`fallbackResponse`. -/
def getBasicResponse (st : ServiceState) (llm : String → Except String String)
    (query language now : String) : RagResult :=
  if st.hasLLM then
    match llm (basicPrompt query language) with
    | Except.ok response =>
      { text := response, sources := ["ollama_llm"], confidence := (8 : ℚ) / 10
        language := language, timestamp := now }
    | Except.error _ => fallbackResponse query language now
  else fallbackResponse query language now

/-- `ragQuery(query, language, context)`: guard on readiness, retrieval merge,
prompt build, inference call; a thrown inference error is caught and degrades
through `getBasicResponse`. -/
def ragQuery (st : ServiceState) (llm : String → Except String String)
    (query language : String) (ctx : QueryContext) (now : String) : RagResult :=
  if !st.isReady || !st.hasLLM then fallbackResponse query language now
  else
    match llm (ragPrompt st query language ctx) with
    | Except.ok response =>
      { text := response
        sources := (retrieve st query ctx.sessionId).2
        confidence := (9 : ℚ) / 10
        language := language
        timestamp := now }
    | Except.error _ => getBasicResponse st llm query language now

/-- Rendering of recent turns into the history text
(`role: content (uploaded n file(s))`, newline separated). -/
def renderTurns (turns : List Turn) : String :=
  String.intercalate "\n" (turns.map (fun msg =>
    msg.role ++ ": " ++ msg.content ++
      (if msg.files ≠ 0 then " (uploaded " ++ toString msg.files ++ " file(s))" else "")))

/-- `getConversationHistory(sessionId, limit)`: the no-history sentinel for an
unknown session, otherwise the rendering of `history.slice(-limit)` (the
`limit` most recent turns; `limit` is always the default 10 in the source). -/
def getConversationHistory (hist : List (String × List Turn)) (sessionId : String)
    (limit : Nat) : String :=
  match mapGet hist sessionId with
  | none => "No previous conversation in this session."
  | some history => renderTurns (history.drop (history.length - limit))

/-- The per-session log update of `storeConversation`: push, then truncate to
the 50 most recent turns (`history.slice(-50)`) when the cap is exceeded. -/
def storeConversation (history : List Turn) (message : Turn) : List Turn :=
  let h := history ++ [message]
  if h.length > 50 then h.drop (h.length - 50) else h

/-- `storeConversation(sessionId, message)` at the level of the
`conversationHistory` map (creating the per-session log when absent). -/
def storeConvMap (m : List (String × List Turn)) (sessionId : String) (message : Turn) :
    List (String × List Turn) :=
  let history := (mapGet m sessionId).getD []
  mapSet m sessionId (storeConversation history message)

/-- The new-files block of `processWithRAG`: with a non-empty `newFiles` list,
extend `files`, append the per-file header blocks of files with truthy content
to `fileContext`, and stamp `lastUpdated`; with an empty list, do nothing. -/
def updateSessionFiles (sessionContext : SessionCtx) (newFiles : List SessFile)
    (now : String) : SessionCtx :=
  if newFiles.length > 0 then
    let fileContext := newFiles.foldl (fun acc file =>
      match file.content with
      | none => acc
      | some c =>
        if c = "" then acc
        else acc ++ "\n\n=== File: " ++ file.filename ++ " ===\n" ++
          "Type: " ++ file.ftype ++ "\n" ++
          "Size: " ++ formatFileSize file.size ++ "\n" ++
          "Content: " ++ c ++ "\n") ""
    { sessionContext with
      files := sessionContext.files ++ newFiles
      fileContext := if fileContext ≠ "" then sessionContext.fileContext ++ fileContext
        else sessionContext.fileContext
      lastUpdated := now }
  else sessionContext

/-- The session registry after the lazy `getOrCreate` of `processWithRAG`. -/
def sessionContextsEnsured (st : ServiceState) (now : String) (opts : Options) :
    List (String × SessionCtx) :=
  let emptySession : SessionCtx :=
    { files := [], fileContext := "", lastUpdated := now, language := opts.language }
  if (mapGet st.sessionContexts opts.sessionId).isSome then st.sessionContexts
  else mapSet st.sessionContexts opts.sessionId emptySession

/-- The session context after the language update and the new-files block of
`processWithRAG`. -/
def updatedSessionContext (st : ServiceState) (now : String) (opts : Options) : SessionCtx :=
  let emptySession : SessionCtx :=
    { files := [], fileContext := "", lastUpdated := now, language := opts.language }
  let sessionContext0 := (mapGet (sessionContextsEnsured st now opts) opts.sessionId).getD
    emptySession
  updateSessionFiles { sessionContext0 with language := opts.language } opts.newFiles now

/-- The service state as `ragQuery` observes it from `processWithRAG` (session
registry already updated). -/
def ragCallState (st : ServiceState) (now : String) (opts : Options) : ServiceState :=
  let ctxs := mapSet (sessionContextsEnsured st now opts) opts.sessionId
    (updatedSessionContext st now opts)
  { st with sessionContexts := ctxs }

/-- The `context` argument `processWithRAG` passes to `ragQuery`. -/
def ragCallContext (st : ServiceState) (now : String) (opts : Options) : QueryContext :=
  { history := getConversationHistory st.conversationHistory opts.sessionId 10
    fileContext := (updatedSessionContext st now opts).fileContext
    sessionId := opts.sessionId
    files := (updatedSessionContext st now opts).files }

/-- The prompt the orchestrator sends on the primary inference call for a
given service state, instant and options. -/
def orchestratorPrompt (st : ServiceState) (now : String) (opts : Options) : String :=
  ragPrompt (ragCallState st now opts) opts.message opts.language (ragCallContext st now opts)

/-- `processWithRAG(options)`: the orchestrator body, expressed through the
accessors above (each a verbatim extraction of the corresponding `let`
bindings of the source). Returns the updated service state together with the
structured result; every failure of the inference backend is absorbed inside
`ragQuery`, so the function is total. -/
def processWithRAG (st : ServiceState) (llm : String → Except String String)
    (sentimentOf : String → String) (now : String) (opts : Options) :
    ServiceState × ProcessResult :=
  let sessionContext := updatedSessionContext st now opts
  let st2 := ragCallState st now opts
  let ragResult := ragQuery st2 llm opts.message opts.language
    (ragCallContext st now opts) now
  let sentiment :=
    if opts.analyzeSentiment && opts.language = "en" then sentimentOf opts.message
    else "neutral"
  let intent := detectIntent opts.message opts.language
  let ch1 := storeConvMap st2.conversationHistory opts.sessionId
    { role := "user", content := opts.message, language := opts.language
      files := opts.files.length, timestamp := now }
  let ch2 := storeConvMap ch1 opts.sessionId
    { role := "assistant", content := ragResult.text, language := opts.language
      files := 0, timestamp := now }
  ({ st2 with conversationHistory := ch2 },
   { text := ragResult.text
     sentiment := sentiment
     intent := intent
     -- `ragResult.sources || ['ollama']`: a JS array is always truthy
     sources := ragResult.sources
     -- `ragResult.confidence || 0.8`: the number 0 is the only falsy confidence
     confidence := if ragResult.confidence = 0 then (8 : ℚ) / 10 else ragResult.confidence
     language := opts.language
     shouldSpeak := true
     sessionId := opts.sessionId
     fileCount := sessionContext.files.length
     timestamp := now })

/-- `addToKnowledgeBase(text, source, metadata)` restricted to the local
knowledge list (the optional Chroma mirror is an external side effect):
append and return `{ success, count, ids: [count - 1] }`. -/
def addToKnowledgeBase (knowledge : List Doc) (text source : String)
    (mtype : Option String) : List Doc × AddResult :=
  let k := knowledge ++ [{ content := text, source := source, dtype := mtype.getD "general" }]
  (k, { success := true, count := k.length, ids := [k.length - 1] })

/-- `clearSession(sessionId)`: delete both map entries when present and report
success unconditionally. -/
def clearSession (st : ServiceState) (sessionId now : String) :
    ServiceState × ClearResult :=
  ({ st with
      sessionContexts := mapDel st.sessionContexts sessionId
      conversationHistory := mapDel st.conversationHistory sessionId },
   { success := true
     message := "Session " ++ sessionId ++ " cleared successfully"
     timestamp := now })

/-- `getSessionInfo(sessionId)`. -/
def getSessionInfo (st : ServiceState) (sessionId now : String) : SessionInfo :=
  match mapGet st.sessionContexts sessionId with
  | none => SessionInfo.notFound "Session not found"
  | some session =>
    let history := (mapGet st.conversationHistory sessionId).getD []
    SessionInfo.found sessionId
      (if session.language = "" then "en" else session.language)
      session.files.length history.length session.lastUpdated now

/-! Spec-side characterizations, written from the specification text; the
theorems below compare them with the functions translated from the source. -/

/-- Spec-side predicate: a session file participates in the session-file
search when it has non-empty extracted content containing at least one of
the query words. -/
def fileMatchesW (queryWords : List String) (file : SessFile) : Bool :=
  match file.content with
  | none => false
  | some c =>
    decide (c ≠ "") &&
      decide (0 < ((queryWords.filter (fun word => strContains (toLowerStr c) word)).length))

/-- Spec-side rendering of the passage produced for a matching session file:
text is the first 1000 characters of the content plus an ellipsis, and
`matchScore` is matched words over total query words. -/
def filePassageW (queryWords : List String) (file : SessFile) : Passage :=
  let c := file.content.getD ""
  { pageContent := "From uploaded file \"" ++ file.filename ++ "\":\n" ++ takeStr c 1000 ++ "..."
    msource := "session_file"
    mfilename := some file.filename
    mtype := some file.ftype
    matchScore := some (mkRat ((queryWords.filter
      (fun word => strContains (toLowerStr c) word)).length) queryWords.length) }

/-- The passages contributed by step 2 (external vector store). -/
def vectorDocs (v : Option (Except String (List Passage))) : List Passage :=
  match v with
  | some (Except.ok chromaDocs) => chromaDocs
  | _ => []

/-- The source tags contributed by step 2. -/
def vectorSources (v : Option (Except String (List Passage))) : List String :=
  match v with
  | some (Except.ok _) => ["chromadb"]
  | _ => []

/-- The passages contributed by step 3 (session files). -/
def sessionDocs (st : ServiceState) (query sessionId : String) : List Passage :=
  if sessionId ≠ "" then
    match mapGet st.sessionContexts sessionId with
    | some sessionContext =>
      if sessionContext.files.length > 0 then searchInSessionFiles query sessionContext.files
      else []
    | none => []
  else []

/-- The source tags contributed by step 3. -/
def sessionSources (st : ServiceState) (query sessionId : String) : List String :=
  if (sessionDocs st query sessionId).length > 0 then ["session_files"] else []

/-! Concrete instances used by witnesses, counterexamples and the bug
demonstration. -/

/-- A ready service with the seeded knowledge base, no sessions, no history
and no vector store. -/
def exState : ServiceState :=
  { isReady := true, hasLLM := true, localKnowledge := initialLocalKnowledge
    conversationHistory := [], sessionContexts := [], vector := none }

/-- A ready service with everything empty. -/
def exEmptyState : ServiceState :=
  { isReady := true, hasLLM := true, localKnowledge := []
    conversationHistory := [], sessionContexts := [], vector := none }

/-- Whether an `Except` value is an error, i.e. a thrown JS exception. -/
def isError {e a : Type} : Except e a → Bool
  | Except.error _ => true
  | Except.ok _ => false

/-- An inference backend that times out on every prompt. -/
def exLlmFail : String → Except String String := fun _ => Except.error "timeout"

/-- An inference backend that answers every prompt. -/
def exLlmOk : String → Except String String := fun _ => Except.ok "Sure, happy to help."

/-- An inference backend that times out on every prompt except the simpler
retry prompt of `getBasicResponse` for the English query `"hello"`, which it
answers. -/
def exLlmRetryOk : String → Except String String :=
  fun p =>
    if p = basicPrompt "hello" "en" then Except.ok "Here is a basic answer."
    else Except.error "timeout"

/-- A sentiment oracle (the `natural`-library scorer is an external
collaborator). -/
def exSentiment : String → String := fun _ => "neutral"

/-- A plain query with no files. -/
def exOpts : Options :=
  { message := "hello", language := "en", sessionId := "session1", useRAG := true
    analyzeSentiment := true, files := [], newFiles := [] }

/-- A session file matching one of the two words of the query
`"alpha beta"`. -/
def exFileA : SessFile :=
  { filename := "a.txt", ftype := "document", size := 5, content := some "alpha" }

/-- A session file matching both words of the query `"alpha beta"`. -/
def exFileB : SessFile :=
  { filename := "b.txt", ftype := "document", size := 10, content := some "alpha beta" }

/-- A session file with non-empty extracted content. -/
def exNotesFile : SessFile :=
  { filename := "notes.txt", ftype := "document", size := 11, content := some "hello world" }

/-- Three stored documents all containing the token `aaa` and not the token
`zzz`. -/
def exThreeDocs : List Doc :=
  [ { content := "aaa one", source := "system", dtype := "general" }
  , { content := "aaa two", source := "system", dtype := "general" }
  , { content := "aaa three", source := "system", dtype := "general" } ]

/-- A conversation turn used to populate example logs. -/
def exTurn (i : Nat) : Turn :=
  { role := "user", content := toString i, language := "en", files := 0, timestamp := "t" }

/-- A ready service whose knowledge base is the three `aaa` documents. -/
def exCrowdedState : ServiceState :=
  { isReady := true, hasLLM := true, localKnowledge := exThreeDocs
    conversationHistory := [], sessionContexts := [], vector := none }

/-- Two old turns beyond the ten most recent ones. -/
def exOlder : List Turn := [exTurn 0, exTurn 1]

/-- Ten most recent turns. -/
def exRecent : List Turn :=
  [exTurn 2, exTurn 3, exTurn 4, exTurn 5, exTurn 6, exTurn 7, exTurn 8, exTurn 9,
   exTurn 10, exTurn 11]

/-! Helper lemmas shared by the claim theorems. -/

/-- One `forEach` iteration of `searchInSessionFiles` appends the spec-side
passage of the file exactly when the spec-side match predicate holds. -/
theorem sessStep_eq (queryWords : List String) (results : List Passage) (file : SessFile) :
    sessStep queryWords results file =
      results ++
        (if fileMatchesW queryWords file then [filePassageW queryWords file] else []) := by
  unfold sessStep fileMatchesW filePassageW
  rcases file with ⟨fn, ft, sz, c⟩
  rcases c with _ | c
  · simp
  · by_cases hc : c = ""
    · simp [hc]
    · by_cases hm : 0 < ((queryWords.filter
        (fun word => strContains (toLowerStr c) word)).length)
      · simp [hc, hm]
      · simp [hc, hm]

/-- The `forEach` loop collects, in file order, the spec-side passages of the
matching files. -/
theorem foldl_sessStep (queryWords : List String) (files : List SessFile)
    (init : List Passage) :
    files.foldl (sessStep queryWords) init =
      init ++ (files.filter (fileMatchesW queryWords)).map (filePassageW queryWords) := by
  induction files generalizing init with
  | nil => simp
  | cons f fs ih =>
    rw [List.foldl_cons, ih, sessStep_eq, List.filter_cons]
    by_cases hf : fileMatchesW queryWords f
    · simp [hf]
    · simp [hf]

/-- The retrieval merge decomposes into the three steps in their fixed order,
with the unconditional trailing `local_knowledge` tag. -/
theorem retrieve_eq (st : ServiceState) (query sessionId : String) :
    retrieve st query sessionId =
      (localSearch query st.localKnowledge ++ vectorDocs st.vector ++
        sessionDocs st query sessionId,
       vectorSources st.vector ++ sessionSources st query sessionId ++
        ["local_knowledge"]) := by
  unfold retrieve
  rcases hv : st.vector with _ | e
  · by_cases hs : sessionId ≠ ""
    · rcases hg : mapGet st.sessionContexts sessionId with _ | sc
      · simp [vectorDocs, vectorSources, sessionDocs, sessionSources, hv, hs, hg]
      · by_cases hf : sc.files.length > 0
        · by_cases hd : (searchInSessionFiles query sc.files).length > 0
          · simp [vectorDocs, vectorSources, sessionDocs, sessionSources, hv, hs, hg, hf, hd]
          · simp [vectorDocs, vectorSources, sessionDocs, sessionSources, hv, hs, hg, hf, hd]
        · simp [vectorDocs, vectorSources, sessionDocs, sessionSources, hv, hs, hg, hf]
    · simp [vectorDocs, vectorSources, sessionDocs, sessionSources, hv, hs]
  · rcases e with e | chromaDocs
    · by_cases hs : sessionId ≠ ""
      · rcases hg : mapGet st.sessionContexts sessionId with _ | sc
        · simp [vectorDocs, vectorSources, sessionDocs, sessionSources, hv, hs, hg]
        · by_cases hf : sc.files.length > 0
          · by_cases hd : (searchInSessionFiles query sc.files).length > 0
            · simp [vectorDocs, vectorSources, sessionDocs, sessionSources, hv, hs, hg, hf, hd]
            · simp [vectorDocs, vectorSources, sessionDocs, sessionSources, hv, hs, hg, hf, hd]
          · simp [vectorDocs, vectorSources, sessionDocs, sessionSources, hv, hs, hg, hf]
      · simp [vectorDocs, vectorSources, sessionDocs, sessionSources, hv, hs]
    · by_cases hs : sessionId ≠ ""
      · rcases hg : mapGet st.sessionContexts sessionId with _ | sc
        · simp [vectorDocs, vectorSources, sessionDocs, sessionSources, hv, hs, hg]
        · by_cases hf : sc.files.length > 0
          · by_cases hd : (searchInSessionFiles query sc.files).length > 0
            · simp [vectorDocs, vectorSources, sessionDocs, sessionSources, hv, hs, hg, hf, hd]
            · simp [vectorDocs, vectorSources, sessionDocs, sessionSources, hv, hs, hg, hf, hd]
          · simp [vectorDocs, vectorSources, sessionDocs, sessionSources, hv, hs, hg, hf]
      · simp [vectorDocs, vectorSources, sessionDocs, sessionSources, hv, hs]

/-- The retrieval merge always declares `local_knowledge` among its source
tags. -/
theorem retrieve_sources_mem (st : ServiceState) (query sessionId : String) :
    "local_knowledge" ∈ (retrieve st query sessionId).2 := by
  rw [retrieve_eq]
  simp

/-- A backend that fails on the enhanced RAG prompt and also on the simpler
retry prompt of `getBasicResponse` drives `ragQuery` to the canned fallback
result, on every path. -/
theorem ragQuery_fail_two (st : ServiceState) (llm : String → Except String String)
    (query language : String) (ctx : QueryContext) (now : String)
    (h1 : ∃ m, llm (ragPrompt st query language ctx) = Except.error m)
    (h2 : ∃ m, llm (basicPrompt query language) = Except.error m) :
    ragQuery st llm query language ctx now = fallbackResponse query language now := by
  unfold ragQuery
  split
  · rfl
  · obtain ⟨m, hm⟩ := h1
    rw [hm]
    show getBasicResponse st llm query language now = fallbackResponse query language now
    unfold getBasicResponse
    split
    · obtain ⟨m2, hm2⟩ := h2
      rw [hm2]
    · rfl

/-- Claim C2, counterexample. For the query `"alpha beta"` (two tokens of
length > 2) and a session holding a file matching one word followed by a file
matching both words, the session-file search returns the passages in file
order with strictly increasing match scores (1/2 then 1), so the kept files
are not sorted by descending `matchScore` as the claim states. -/
theorem C2_counterexample :
    tokenize "alpha beta" = ["alpha", "beta"] ∧
    (searchInSessionFiles "alpha beta" [exFileA, exFileB]).map Passage.matchScore =
      [some (mkRat 1 2), some (mkRat 2 2)] ∧
    mkRat 1 2 < mkRat 2 2 := by decide

/-- Claim C2, amended. For every query with at least one token of length > 2,
the session-file search assigns each file with non-empty extracted content a
`matchScore` of matched words over total query words, keeps exactly the files
with at least one matching word in their original session order (it does not
sort by `matchScore`), returns the first 2 such files, and truncates each
passage text to the first 1000 characters of the content plus an ellipsis. -/
theorem C2_session_search_first_two_matches (query : String) (files : List SessFile)
    (h : tokenize query ≠ []) :
    searchInSessionFiles query files =
      ((files.filter (fileMatchesW (tokenize query))).take 2).map
        (filePassageW (tokenize query)) := by
  have hlen : ¬((tokenize query).length = 0) := fun h0 => h (List.length_eq_zero.mp h0)
  simp only [searchInSessionFiles]
  rw [if_neg hlen, foldl_sessStep]
  simp [List.map_take]

/-- Witness for C2 at the query `"alpha beta"` and the two example files. -/
theorem C2_witness :
    tokenize "alpha beta" ≠ [] ∧
    searchInSessionFiles "alpha beta" [exFileA, exFileB] =
      (([exFileA, exFileB].filter (fileMatchesW (tokenize "alpha beta"))).take 2).map
        (filePassageW (tokenize "alpha beta")) :=
  ⟨by decide, C2_session_search_first_two_matches "alpha beta" [exFileA, exFileB] (by decide)⟩

/-- Claim C3, counterexample. For the query `"hi"` (whose tokenization is
empty) and a session file with non-empty extracted content, the session-file
search returns no passages at all: step 3 does not treat every candidate as a
match, it returns early with an empty result. -/
theorem C3_counterexample :
    tokenize "hi" = [] ∧
    exNotesFile.content = some "hello world" ∧
    searchInSessionFiles "hi" [exNotesFile] = [] := by decide

/-- Claim C3, amended. For every query whose tokenization is empty, step 1
treats every document as a match and returns the first `limit` (3) documents,
step 3 returns no session-file passages (the file search returns early with an
empty list), and step 2 still runs unconditionally: the external vector
contribution to passages and source tags is exactly the same as for any other
query. -/
theorem C3_empty_token_query (st : ServiceState) (query sessionId : String)
    (knowledge : List Doc) (files : List SessFile) (h : tokenize query = []) :
    localSearch query knowledge = (knowledge.take 3).map docPassage ∧
    searchInSessionFiles query files = [] ∧
    (retrieve st query sessionId).1 =
      (st.localKnowledge.take 3).map docPassage ++ vectorDocs st.vector ∧
    (retrieve st query sessionId).2 = vectorSources st.vector ++ ["local_knowledge"] := by
  have hloc : ∀ k : List Doc, localSearch query k = (k.take 3).map docPassage := by
    intro k
    simp only [localSearch, h]
    have hfilter : List.filter (docMatches []) k = k :=
      List.filter_eq_self.mpr (fun a _ => rfl)
    rw [hfilter]
  have hsess : ∀ fl : List SessFile, searchInSessionFiles query fl = [] := by
    intro fl
    simp only [searchInSessionFiles, h]
    simp
  have hsd : sessionDocs st query sessionId = [] := by
    unfold sessionDocs
    split
    · split
      · split
        · exact hsess _
        · rfl
      · rfl
    · rfl
  have hss : sessionSources st query sessionId = [] := by
    simp [sessionSources, hsd]
  refine ⟨hloc knowledge, hsess files, ?_, ?_⟩
  · rw [retrieve_eq]
    simp [hloc, hsd]
  · rw [retrieve_eq]
    simp [hss]

/-- Witness for C3 at the query `"hi"`, a three-document store and one session
file. -/
theorem C3_witness :
    tokenize "hi" = [] ∧
    (localSearch "hi" exThreeDocs = (exThreeDocs.take 3).map docPassage ∧
     searchInSessionFiles "hi" [exNotesFile] = [] ∧
     (retrieve exState "hi" "session1").1 =
       (exState.localKnowledge.take 3).map docPassage ++ vectorDocs exState.vector ∧
     (retrieve exState "hi" "session1").2 =
       vectorSources exState.vector ++ ["local_knowledge"]) :=
  ⟨by decide, C3_empty_token_query exState "hi" "session1" exThreeDocs [exNotesFile] (by decide)⟩

set_option maxRecDepth 100000 in
/-- Claim C5: the source intends to include the prior-turn history block only
when the history is not the no-history sentinel, but it compares against
`"No previous conversation"` while the sentinel actually produced for a
session with no stored turns is `"No previous conversation in this session."`.
Consequently the prompt built for a fresh session does contain a
`PREVIOUS CONVERSATION` section (holding the sentinel text), contradicting the
specified behaviour: the inclusion condition evaluates to `true` on the
sentinel, and the built prompt (also via the full `ragPrompt` pipeline)
contains the section. -/
theorem C5_history_sentinel_bug :
    getConversationHistory [] "session1" 10 = "No previous conversation in this session." ∧
    includeHistory "No previous conversation in this session." = true ∧
    strContains
      (buildPrompt "en" "ctx" "" 0 "No previous conversation in this session." "hello")
      "PREVIOUS CONVERSATION" = true ∧
    strContains
      (ragPrompt exState "hello" "en"
        { history := "No previous conversation in this session.", fileContext := ""
          sessionId := "session1", files := [] })
      "PREVIOUS CONVERSATION" = true := by decide

/-- Claim C6: storing a turn always leaves the per-session log with at most 50
entries, and the surviving entries are exactly the most recent suffix of the
pushed log — the oldest turns are evicted first, in order (FIFO). -/
theorem C6_conversation_log_fifo_cap (history : List Turn) (message : Turn) :
    (storeConversation history message).length ≤ 50 ∧
    storeConversation history message =
      (history ++ [message]).drop ((history ++ [message]).length - 50) := by
  simp only [storeConversation]
  by_cases hh : (history ++ [message]).length > 50
  · rw [if_pos hh]
    refine ⟨?_, rfl⟩
    rw [List.length_drop]
    omega
  · rw [if_neg hh]
    have h0 : (history ++ [message]).length - 50 = 0 := by
      simp only [List.length_append] at hh ⊢
      omega
    rw [h0, List.drop_zero]
    refine ⟨?_, rfl⟩
    simp only [List.length_append] at hh ⊢
    omega

/-- Claim C7: appending an empty new-files list to a session context is a
no-op (files, aggregated file context and `lastUpdated` all unchanged), while
appending a non-empty list stamps `lastUpdated` with the current time. -/
theorem C7_append_files_lastUpdated (sessionContext : SessionCtx) (now : String) :
    updateSessionFiles sessionContext [] now = sessionContext ∧
    ∀ (f : SessFile) (fs : List SessFile),
      (updateSessionFiles sessionContext (f :: fs) now).lastUpdated = now := by
  refine ⟨rfl, fun f fs => ?_⟩
  simp [updateSessionFiles]

/-- Claim C8, counterexample. Evicting a session id that is not present in the
registry reports `success: true` with a "cleared successfully" message — not
the explicit "not found" result the claim states. -/
theorem C8_counterexample :
    mapGet exEmptyState.sessionContexts "ghost" = none ∧
    (clearSession exEmptyState "ghost" "t0").2.success = true ∧
    (clearSession exEmptyState "ghost" "t0").2.message =
      "Session ghost cleared successfully" := by decide

/-- Claim C8, amended. For every session id not present in the registry, the
inspection operation returns the explicit not-found result (not an error),
while the eviction operation reports success unconditionally (it is an
idempotent delete); neither raises. -/
theorem C8_unknown_session (st : ServiceState) (sessionId now : String)
    (h : mapGet st.sessionContexts sessionId = none) :
    getSessionInfo st sessionId now = SessionInfo.notFound "Session not found" ∧
    (clearSession st sessionId now).2.success = true ∧
    (clearSession st sessionId now).2.message =
      "Session " ++ sessionId ++ " cleared successfully" := by
  refine ⟨?_, rfl, rfl⟩
  unfold getSessionInfo
  rw [h]

/-- Witness for C8 at the unknown id `"ghost"` in the empty registry. -/
theorem C8_witness :
    getSessionInfo exEmptyState "ghost" "t0" = SessionInfo.notFound "Session not found" ∧
    (clearSession exEmptyState "ghost" "t0").2.success = true ∧
    (clearSession exEmptyState "ghost" "t0").2.message =
      "Session ghost cleared successfully" :=
  C8_unknown_session exEmptyState "ghost" "t0" (by decide)

set_option maxRecDepth 100000 in
/-- Claim C1, counterexample. A backend that throws on the orchestrator
primary inference prompt but answers the simpler retry prompt of
`getBasicResponse` makes the orchestrator return the retry answer with
sources `["ollama_llm"]` — not the canned fallback text with sources
`["fallback"]` — even though the inference backend call failed. -/
theorem C1_counterexample :
    isError (exLlmRetryOk (orchestratorPrompt exState "t0" exOpts)) = true ∧
    (processWithRAG exState exLlmRetryOk exSentiment "t0" exOpts).2.sources =
      ["ollama_llm"] ∧
    (processWithRAG exState exLlmRetryOk exSentiment "t0" exOpts).2.text =
      "Here is a basic answer." ∧
    (processWithRAG exState exLlmRetryOk exSentiment "t0" exOpts).2.sources ≠
      ["fallback"] ∧
    (processWithRAG exState exLlmRetryOk exSentiment "t0" exOpts).2.text ≠
      fallbackText "en" "hello" := by decide

/-- Claim C1, amended. For every query, language and session: when the
inference backend fails on the primary RAG prompt and also on the simpler
retry prompt that `getBasicResponse` sends, the orchestrator returns —
without propagating any exception, being a total function — a well-formed
result whose text is the language-selected canned fallback string, whose
sources are exactly `["fallback"]` and whose confidence is exactly 0.6. -/
theorem C1_fallback_when_both_calls_fail (st : ServiceState)
    (llm : String → Except String String) (sentimentOf : String → String)
    (now : String) (opts : Options)
    (h1 : ∃ m, llm (orchestratorPrompt st now opts) = Except.error m)
    (h2 : ∃ m, llm (basicPrompt opts.message opts.language) = Except.error m) :
    (processWithRAG st llm sentimentOf now opts).2.text =
      fallbackText opts.language opts.message ∧
    (processWithRAG st llm sentimentOf now opts).2.sources = ["fallback"] ∧
    (processWithRAG st llm sentimentOf now opts).2.confidence = 6 / 10 := by
  have hrq : ragQuery (ragCallState st now opts) llm opts.message opts.language
      (ragCallContext st now opts) now =
        fallbackResponse opts.message opts.language now :=
    ragQuery_fail_two (ragCallState st now opts) llm opts.message opts.language
      (ragCallContext st now opts) now h1 h2
  simp only [processWithRAG, hrq, fallbackResponse]
  norm_num

/-- Witness for C1 with a backend that times out on both prompts. -/
theorem C1_witness :
    (processWithRAG exState exLlmFail exSentiment "t0" exOpts).2.text =
      fallbackText "en" "hello" ∧
    (processWithRAG exState exLlmFail exSentiment "t0" exOpts).2.sources = ["fallback"] ∧
    (processWithRAG exState exLlmFail exSentiment "t0" exOpts).2.confidence = 6 / 10 :=
  C1_fallback_when_both_calls_fail exState exLlmFail exSentiment "t0" exOpts
    ⟨"timeout", rfl⟩ ⟨"timeout", rfl⟩

set_option maxRecDepth 100000 in
/-- Claim C4, counterexample. When the inference backend fails, the returned
sources are `["fallback"]`, which does not contain `local_knowledge` — so the
tag is not present in the result for every query. -/
theorem C4_counterexample :
    (processWithRAG exState exLlmFail exSentiment "t0" exOpts).2.sources = ["fallback"] ∧
    "local_knowledge" ∉
      (processWithRAG exState exLlmFail exSentiment "t0" exOpts).2.sources := by decide

/-- On the successful inference path the `sources` of `ragQuery` are the
retrieval tags. -/
theorem ragQuery_ok_sources (st : ServiceState) (llm : String → Except String String)
    (query language : String) (ctx : QueryContext) (now : String)
    (hready : st.isReady = true) (hllm : st.hasLLM = true)
    (hok : ∀ p, ∃ t, llm p = Except.ok t) :
    (ragQuery st llm query language ctx now).sources = (retrieve st query ctx.sessionId).2 := by
  unfold ragQuery
  rw [hready, hllm]
  obtain ⟨t, ht⟩ := hok (ragPrompt st query language ctx)
  simp [ht]

/-- Claim C4, amended. For every query answered through the normal inference
path (service ready, backend call succeeds), the `sources` of the returned
result contain the tag `local_knowledge`, even when the Knowledge Store search
produced zero matching passages; on the degraded paths the sources are instead
`["ollama_llm"]` or `["fallback"]`. -/
theorem C4_local_knowledge_always_declared (st : ServiceState)
    (llm : String → Except String String) (sentimentOf : String → String)
    (now : String) (opts : Options)
    (hready : st.isReady = true) (hllm : st.hasLLM = true)
    (hok : ∀ p, ∃ t, llm p = Except.ok t) :
    "local_knowledge" ∈ (processWithRAG st llm sentimentOf now opts).2.sources := by
  have key : ∀ ctx : QueryContext,
      (ragQuery (ragCallState st now opts) llm opts.message opts.language
          ctx now).sources =
        (retrieve (ragCallState st now opts) opts.message ctx.sessionId).2 :=
    fun ctx =>
      ragQuery_ok_sources (ragCallState st now opts) llm opts.message
        opts.language ctx now hready hllm hok
  simp only [processWithRAG, key]
  exact retrieve_sources_mem _ _ _

/-- Witness for C4 with a backend that answers every prompt. -/
theorem C4_witness :
    "local_knowledge" ∈ (processWithRAG exState exLlmOk exSentiment "t0" exOpts).2.sources :=
  C4_local_knowledge_always_declared exState exLlmOk exSentiment "t0" exOpts rfl rfl
    (fun _ => ⟨"Sure, happy to help.", rfl⟩)

set_option maxRecDepth 100000 in
/-- Claim C9, counterexample. With three stored documents all matching the
query word `aaa`, ingesting the text `zzz` and querying `"aaa zzz"` — where
`zzz` is a query token of length > 2 occurring in the ingested text and in no
other stored document — does not retrieve the ingested document: the three
earlier matches fill the `slice(0, 3)` cap of step 1. -/
theorem C9_counterexample :
    "zzz" ∈ tokenize "aaa zzz" ∧
    strContains (toLowerStr "zzz") "zzz" = true ∧
    exThreeDocs.all (fun d => !(strContains (toLowerStr d.content) "zzz")) = true ∧
    "zzz" ∉
      ((retrieve { exCrowdedState with localKnowledge :=
          (addToKnowledgeBase exThreeDocs "zzz" "manual" none).1 } "aaa zzz"
          "session1").1.map Passage.pageContent) := by decide

/-- Claim C9, amended. Ingesting a text and then querying with a query that
contains a token of length > 2 occurring in that text retrieves the ingested
document among the passages (and `local_knowledge` among the declared
sources), provided at most 2 of the previously stored documents match the
query — otherwise the earlier matches fill the step-1 cap of 3. -/
theorem C9_ingest_then_retrieve (st : ServiceState)
    (text source query sessionId w : String) (mtype : Option String)
    (hw : w ∈ tokenize query)
    (hocc : strContains (toLowerStr text) w = true)
    (hfew : (st.localKnowledge.filter (docMatches (tokenize query))).length ≤ 2) :
    text ∈
      ((retrieve { st with localKnowledge :=
          (addToKnowledgeBase st.localKnowledge text source mtype).1 } query
          sessionId).1.map Passage.pageContent) ∧
    "local_knowledge" ∈
      (retrieve { st with localKnowledge :=
          (addToKnowledgeBase st.localKnowledge text source mtype).1 } query
          sessionId).2 := by
  refine ⟨?_, retrieve_sources_mem _ _ _⟩
  rw [retrieve_eq]
  dsimp only
  rw [List.map_append, List.map_append]
  apply List.mem_append_left
  apply List.mem_append_left
  have hmatch : docMatches (tokenize query)
      ({ content := text, source := source, dtype := mtype.getD "general" } : Doc) = true := by
    simp only [docMatches, Bool.or_eq_true, List.any_eq_true]
    exact Or.inr ⟨w, hw, hocc⟩
  have hfl : ((addToKnowledgeBase st.localKnowledge text source mtype).1).filter
        (docMatches (tokenize query)) =
      st.localKnowledge.filter (docMatches (tokenize query)) ++
        [({ content := text, source := source, dtype := mtype.getD "general" } : Doc)] := by
    show ((st.localKnowledge ++
        [({ content := text, source := source, dtype := mtype.getD "general" } : Doc)]).filter
          (docMatches (tokenize query))) = _
    rw [List.filter_append]
    simp [hmatch]
  have hlen3 : ((st.localKnowledge.filter (docMatches (tokenize query))) ++
      [({ content := text, source := source, dtype := mtype.getD "general" } : Doc)]).length ≤ 3 := by
    rw [List.length_append]
    simp only [List.length_singleton]
    omega
  simp only [localSearch]
  rw [hfl, List.take_of_length_le hlen3]
  refine List.mem_map.mpr ⟨docPassage
    ({ content := text, source := source, dtype := mtype.getD "general" } : Doc), ?_, rfl⟩
  exact List.mem_map_of_mem docPassage
    (List.mem_append_right _ (List.mem_singleton.mpr rfl))

/-- Witness for C9: ingesting `qqqfact` into the empty store and querying for
its unique token retrieves it through the local knowledge step. -/
theorem C9_witness :
    "qqqfact" ∈
      ((retrieve { exEmptyState with localKnowledge :=
          (addToKnowledgeBase exEmptyState.localKnowledge "qqqfact" "manual" none).1 }
          "tell me about qqqfact" "session1").1.map Passage.pageContent) ∧
    "local_knowledge" ∈
      (retrieve { exEmptyState with localKnowledge :=
          (addToKnowledgeBase exEmptyState.localKnowledge "qqqfact" "manual" none).1 }
          "tell me about qqqfact" "session1").2 :=
  C9_ingest_then_retrieve exEmptyState "qqqfact" "manual" "tell me about qqqfact"
    "session1" "qqqfact" none (by decide) (by decide) (by decide)

/-- Claim C10: the conversation history text assembled for the prompt is
computed from exactly the 10 most recent stored turns — any turns older than
the last 10 have no influence on it, even though up to 50 turns are retained
in the per-session log. -/
theorem C10_history_limited_to_ten (m : List (String × List Turn)) (sessionId : String)
    (older recent : List Turn)
    (h : mapGet m sessionId = some (older ++ recent)) (hlen : recent.length = 10) :
    getConversationHistory m sessionId 10 = renderTurns recent := by
  unfold getConversationHistory
  rw [h]
  show renderTurns ((older ++ recent).drop ((older ++ recent).length - 10)) =
    renderTurns recent
  have hdrop : (older ++ recent).length - 10 = older.length := by
    rw [List.length_append, hlen]
    omega
  rw [hdrop, List.drop_left]

/-- Witness for C10 with a 12-turn log: only the last 10 turns are rendered. -/
theorem C10_witness :
    getConversationHistory [("s", exOlder ++ exRecent)] "s" 10 = renderTurns exRecent :=
  C10_history_limited_to_ten [("s", exOlder ++ exRecent)] "s" exOlder exRecent rfl rfl

end AhadAI
